import Mathlib

/-!
Shallow embedding of the polypaudio client connection core
(`src/polyp/polyplib-context.c`) and proofs about it.

The context is a callback-driven state machine.  We embed each C function as
a pure Lean function from the context value (plus its inputs) to the new
context value together with a trace of the externally observable events it
performs (stream state forcing, component releases, observer callbacks,
operation callbacks, ...).  External collaborators that live in other
compilation units (socket client, pstream, pdispatch, operations, streams)
are modelled at their interface boundary: booleans for their "has pending"
predicates, options for their presence, and events for the calls made into
them.
-/

namespace Polyp

/-- Model of `enum pa_context_state` from polyplib-def.h. -/
inductive ContextState where
  | UNCONNECTED
  | CONNECTING
  | AUTHORIZING
  | SETTING_NAME
  | READY
  | FAILED
  | TERMINATED
deriving DecidableEq, Repr

/-- Model of `enum pa_stream_state`; only the parts the context core touches. -/
inductive StreamState where
  | CREATING
  | READY
  | FAILED
  | TERMINATED
deriving DecidableEq, Repr

/-- Error codes (`PA_ERROR_*`).  The context stores them as a plain integer
field (`c->error` is a `uint32_t` written directly from the wire), so we model
the field as `Nat` and name the constants used by this file. -/
def PA_ERROR_OK : Nat := 0
def PA_ERROR_CONNECTIONREFUSED : Nat := 6
def PA_ERROR_PROTOCOL : Nat := 7
def PA_ERROR_TIMEOUT : Nat := 8
def PA_ERROR_AUTHKEY : Nat := 9
def PA_ERROR_CONNECTIONTERMINATED : Nat := 11
def PA_ERROR_INVALIDSERVER : Nat := 13

/-- Protocol command codes (`PA_COMMAND_*` from native-common.h).  The code
only ever compares them for equality against named constants, so an inductive
type is a faithful model; `other n` stands for every remaining code. -/
inductive Cmd where
  | ERROR
  | TIMEOUT
  | REPLY
  | REQUEST
  | AUTH
  | SET_NAME
  | EXIT
  | other (n : Nat)
deriving DecidableEq, Repr

/-- A stream as seen from the context core: its identity and whether a read
(data) callback is registered on it. -/
structure Stream where
  id : Nat
  hasReadCallback : Bool
deriving DecidableEq, Repr

/-- An operation as seen from the context core: its identity and whether a
user completion callback is set. -/
structure Operation where
  id : Nat
  hasCallback : Bool
deriving DecidableEq, Repr

/-- The packet transport (`struct pa_pstream`) at its interface boundary:
the only thing the context core reads back from it is its "has pending"
predicate (`pa_pstream_is_pending`). -/
structure Pstream where
  pending : Bool
deriving DecidableEq, Repr

/-- The reply dispatcher (`struct pa_pdispatch`) at its interface boundary:
its "has pending" predicate (`pa_pdispatch_is_pending`). -/
structure Pdispatch where
  pending : Bool
deriving DecidableEq, Repr

/-- Externally observable events performed by the context core. -/
inductive Ev where
  /-- Records that `pa_stream_set_state(s, st)` was invoked on stream `sid`. -/
  | streamSetState (sid : Nat) (st : StreamState)
  /-- Records that `pa_pdispatch_unref(c->pdispatch)` (release of the reply dispatcher). -/
  | releasePdispatch
  /-- Records that `pa_pstream_close` + `pa_pstream_unref` (release of the transport). -/
  | releasePstream
  /-- Records that `pa_socket_client_unref(c->client)` (release of the connector). -/
  | releaseClient
  /-- the assignment `c->state = st` (commit of the state field). -/
  | commitState (st : ContextState)
  /-- the registered state-change observer callback fired with state `st`. -/
  | stateCallback (st : ContextState)
  /-- Records that `pa_operation_cancel` on operation `oid` (no user callback fires). -/
  | operationCancelled (oid : Nat)
  /-- an operation's user completion callback fired with success flag `b`. -/
  | userCallback (b : Bool)
  /-- a record stream's read callback fired with data pointer and length. -/
  | readCallback (sid : Nat) (ptr : Nat) (len : Nat)
  /-- Records that `pa_xfree(c)`: the context's memory was released. -/
  | contextFreed
deriving DecidableEq, Repr

/-- Model of `struct pa_context`, the fields the embedded functions touch. -/
structure Context where
  ref : Nat
  error : Nat
  state : ContextState
  ctag : Nat
  streams : List Stream
  operations : List Operation
  pstream : Option Pstream
  pdispatch : Option Pdispatch
  client : Option Unit
  record_streams : List (Option Stream)
  hasStateCallback : Bool
deriving DecidableEq, Repr

/-- Model of `pa_context_new`: fresh context (collaborator pointers all NULL). -/
def pa_context_new : Context :=
  { ref := 1
    error := PA_ERROR_OK
    state := .UNCONNECTED
    ctag := 0
    streams := []
    operations := []
    pstream := none
    pdispatch := none
    client := none
    record_streams := []
    hasStateCallback := false }

/-- The stream state a terminal context transition forces:
`st == PA_CONTEXT_FAILED ? PA_STREAM_FAILED : PA_STREAM_TERMINATED`. -/
def terminalStreamState (st : ContextState) : StreamState :=
  if st = .FAILED then .FAILED else .TERMINATED

/-- Model of `pa_context_set_state`.  Returns the new context together with the trace
of events, in the order the C code performs them: early return when the state
is unchanged; on entry into FAILED/TERMINATED every owned stream is forced
terminal (`pa_stream_set_state` unlinks a terminal stream from the context's
list, which is what ends the C iteration), then the reply dispatcher, the
packet transport and the connector are released; then the state field is
committed and the observer callback (if registered) fires.  The surrounding
`pa_context_ref`/`pa_context_unref` pair is a no-op on the fields modelled
here. -/
def pa_context_set_state (c : Context) (st : ContextState) : Context × List Ev :=
  if c.state = st then (c, [])
  else
    let terminal := st = .FAILED ∨ st = .TERMINATED
    let teardownEvs : List Ev :=
      if terminal then
        c.streams.map (fun s => Ev.streamSetState s.id (terminalStreamState st))
        ++ (if c.pdispatch.isSome then [Ev.releasePdispatch] else [])
        ++ (if c.pstream.isSome then [Ev.releasePstream] else [])
        ++ (if c.client.isSome then [Ev.releaseClient] else [])
      else []
    let c1 : Context :=
      if terminal then
        { c with streams := [], pdispatch := none, pstream := none, client := none }
      else c
    ({ c1 with state := st },
     teardownEvs ++ [Ev.commitState st]
       ++ (if c.hasStateCallback then [Ev.stateCallback st] else []))

/-- Model of `pa_context_fail`: record the error, then force the FAILED state. -/
def pa_context_fail (c : Context) (error : Nat) : Context × List Ev :=
  pa_context_set_state { c with error := error } .FAILED

/-- Model of `pa_context_disconnect`: force the TERMINATED state. -/
def pa_context_disconnect (c : Context) : Context × List Ev :=
  pa_context_set_state c .TERMINATED

/-! ### Tagstruct payload reading

A reply handler receives the payload cursor positioned after the command and
tag.  The remaining payload is a sequence of wire values; the two operations
the context core uses on it are `pa_tagstruct_getu32` (read the next u32,
failing on truncation) and `pa_tagstruct_eof`. -/

/-- The unread remainder of a tagstruct: the list of u32 values still to be
consumed (handlers here only ever read u32s). -/
abbrev Tagstruct := List Nat

/-- Model of `pa_tagstruct_getu32`: next u32 and the advanced cursor, or `none` when
the payload is exhausted (the C function returns `< 0`). -/
def pa_tagstruct_getu32 (t : Tagstruct) : Option (Nat × Tagstruct) :=
  match t with
  | [] => none
  | x :: r => some (x, r)

/-- Model of `pa_tagstruct_eof`: no unread data remains. -/
def pa_tagstruct_eof (t : Tagstruct) : Bool :=
  match t with
  | [] => true
  | _ :: _ => false

/-- Model of `pa_context_handle_error`: the shared error-translation step.  Returns
the new context, the trace and the C return value (0 or -1). -/
def pa_context_handle_error (c : Context) (command : Cmd) (t : Tagstruct) :
    Context × List Ev × Int :=
  if command = .ERROR then
    match pa_tagstruct_getu32 t with
    | some (e, _) => ({ c with error := e }, [], 0)
    | none =>
      let (c1, evs) := pa_context_fail c PA_ERROR_PROTOCOL
      (c1, evs, -1)
  else if command = .TIMEOUT then
    ({ c with error := PA_ERROR_TIMEOUT }, [], 0)
  else
    let (c1, evs) := pa_context_fail c PA_ERROR_PROTOCOL
    (c1, evs, -1)

/-- Result of delivering one reply to `pa_context_simple_ack_callback`:
the context afterwards, the event trace (operation user-callback invocations
appear in it as `Ev.userCallback`), and whether the operation was marked done
and unlinked (`pa_operation_done` + `pa_operation_unref` at `finish:`). -/
structure AckResult where
  ctx : Context
  evs : List Ev
  opDone : Bool
deriving Repr

/-- Model of `pa_context_simple_ack_callback` for an operation whose user callback is
set iff `hasCb`.  All paths fall through to `finish:`, which marks the
operation done; the `goto finish` on the two fatal paths skips the user
callback. -/
def pa_context_simple_ack_callback (c : Context) (hasCb : Bool)
    (command : Cmd) (t : Tagstruct) : AckResult :=
  if command ≠ .REPLY then
    let (c1, evs1, r) := pa_context_handle_error c command t
    if r < 0 then
      { ctx := c1, evs := evs1, opDone := true }
    else
      { ctx := c1
        evs := evs1 ++ (if hasCb then [Ev.userCallback false] else [])
        opDone := true }
  else if ¬ pa_tagstruct_eof t then
    let (c1, evs1) := pa_context_fail c PA_ERROR_PROTOCOL
    { ctx := c1, evs := evs1, opDone := true }
  else
    { ctx := c
      evs := if hasCb then [Ev.userCallback true] else []
      opDone := true }

/-! ### Memory-chunk routing -/

/-- Model of `pa_dynarray_get`: NULL for an out-of-range index or an empty slot. -/
def pa_dynarray_get (a : List (Option Stream)) (i : Nat) : Option Stream :=
  match a[i]? with
  | some x => x
  | none => none

/-- A `struct pa_memchunk`: `data` is the memblock's base address (abstract),
`index` the chunk's offset into the memblock, `length` its byte length. -/
structure Memchunk where
  data : Nat
  index : Nat
  length : Nat
deriving DecidableEq, Repr

/-- Model of `pstream_memblock_callback`: route an incoming raw audio chunk tagged
with `channel` to the record stream registered in that slot, if any; the
stream's read callback receives `chunk->memblock->data + chunk->index` and
`chunk->length`.  An unknown channel is silently dropped.  (`delta` is not
forwarded.) -/
def pstream_memblock_callback (c : Context) (channel : Nat) (_delta : Int)
    (chunk : Memchunk) : Context × List Ev :=
  match pa_dynarray_get c.record_streams channel with
  | some s =>
    (c, if s.hasReadCallback
        then [Ev.readCallback s.id (chunk.data + chunk.index) chunk.length]
        else [])
  | none => (c, [])

/-! ### Pending predicate and drain -/

/-- Model of `pa_context_is_pending`.  When READY the code asserts both collaborators
exist and ORs their pending predicates; an absent collaborator is modelled as
not pending (the assert makes the case unreachable in C). -/
def pa_context_is_pending (c : Context) : Bool :=
  if c.state ≠ .READY then false
  else
    (match c.pstream with | some p => p.pending | none => false)
    || (match c.pdispatch with | some p => p.pending | none => false)

/-- The drain operation's bookkeeping: its reference count, whether
`pa_operation_done` ran, how many times its completion callback fired, and
the stream pointer it was created with (`pa_operation_new(c, NULL)`). -/
structure DrainOp where
  refs : Nat
  finished : Bool
  cbCount : Nat
  stream : Option Nat
deriving DecidableEq, Repr

/-- One observation of the two "has pending" predicates at the moment a
drain notification (or the initial arming call) runs. -/
structure DrainEnv where
  pdPending : Bool
  psPending : Bool
deriving DecidableEq, Repr

/-- Model of `set_dispatch_callbacks`, one invocation: clear both drain callbacks,
re-check both predicates, rearm on either still pending (taking an extra
operation reference that the pending notification owns), otherwise fire the
user callback once and finish the operation; the entry reference is dropped
at the end either way. -/
def set_dispatch_callbacks (e : DrainEnv) (o : DrainOp) : DrainOp :=
  if e.pdPending || e.psPending then
    { o with refs := o.refs + 1 - 1 }
  else
    { o with refs := o.refs - 1, finished := true, cbCount := o.cbCount + 1 }

/-- The drain notification loop: each element of `envs` is the predicate pair
observed by one invocation of `set_dispatch_callbacks` (the first element is
the initial call made by `pa_context_drain` itself).  After the operation
finishes no callback is armed, so the loop stops. -/
def drainRun (envs : List DrainEnv) (o : DrainOp) : DrainOp :=
  match envs with
  | [] => o
  | e :: rest =>
    let o1 := set_dispatch_callbacks e o
    if o1.finished then o1 else drainRun rest o1

/-- Model of `pa_context_drain`: on a READY context with nothing pending, return NULL
and create no operation; otherwise create a detached operation
(`pa_operation_new(c, NULL)`, refcount 1 for the caller plus the reference
`pa_operation_ref(o)` passed into `set_dispatch_callbacks`). -/
def pa_context_drain (c : Context) : Option DrainOp :=
  if ¬ pa_context_is_pending c then none
  else some { refs := 2, finished := false, cbCount := 0, stream := none }

/-! ### Connection establishment -/

/-- Model of `DEFAULT_PORT` from native-common.h, as the service string handed to
`getaddrinfo`. -/
def DEFAULT_PORT : List Char := ['4', '7', '1', '3']

/-- The suffix after the LAST `':'` of a string (`strrchr(server, ':')`
followed by `port++`), or `none` when the string has no colon. -/
def afterLastColon : List Char → Option (List Char)
  | [] => none
  | ch :: rest =>
    match afterLastColon rest with
    | some s => some s
    | none => if ch = ':' then some rest else none

/-- The prefix before the last `':'` of a string, or `none` when it has no
colon (the host part of a `host:port` address). -/
def beforeLastColon : List Char → Option (List Char)
  | [] => none
  | ch :: rest =>
    match beforeLastColon rest with
    | some s => some (ch :: s)
    | none => if ch = ':' then some [] else none

/-- An abstract name resolver standing for `getaddrinfo(node, service, ...)`:
given the node and service strings it returns a socket address (abstract) or
`none` for an unresolvable node. -/
abbrev Resolver := List Char → List Char → Option Nat

/-- Model of `resolve_server`: the service (port) string is everything after the last
colon, defaulting to `DEFAULT_PORT`; the node string handed to the resolver
is `server` itself, the WHOLE address — the code never strips the `:port`
suffix off the node it resolves. -/
def resolve_server (resolver : Resolver) (server : List Char) : Option Nat :=
  let port := match afterLastColon server with
    | some p => p
    | none => DEFAULT_PORT
  resolver server port

/-- Modelled from the spec: the resolution step §4.2 describes — "a
host[:port] string (resolved via standard resolution to a socket address;
missing port defaults to a fixed default port)", i.e. the HOST part (the
prefix before the last colon, or the whole address when there is no colon)
is the node handed to the resolver.  This definition exists only to be
compared with `resolve_server` above, which is translated from the code. -/
def resolve_server_spec (resolver : Resolver) (server : List Char) : Option Nat :=
  match beforeLastColon server, afterLastColon server with
  | some host, some port => resolver host port
  | _, _ => resolver server DEFAULT_PORT

/-- The environment `pa_context_connect` runs in: whether the auth-cookie
file loads (`pa_authkey_load_from_home`), the name resolver, whether the
unix / inet socket client constructors succeed, and the server-name default
chain (`getenv(ENV_DEFAULT_SERVER)` then `DEFAULT_SERVER`). -/
structure ConnectEnv where
  authkeyOk : Bool
  resolver : Resolver
  unixClientOk : Bool
  sockClientOk : Bool
  envDefaultServer : Option (List Char)
  defaultServer : List Char

/-- Model of `pa_context_connect` (asserted precondition: state is UNCONNECTED).
Returns the new context, the C return value (0 or -1) and the event trace.
The cookie is loaded first; a NULL server falls back to the environment and
built-in defaults; a server beginning with `'/'` goes to the unix-socket
connector, anything else through `resolve_server`; each failure path runs
`pa_context_fail` with its error code and leaves `c->client` NULL; on
success the connector is stored and the state moves to CONNECTING. -/
def pa_context_connect (env : ConnectEnv) (c : Context)
    (serverArg : Option (List Char)) : Context × Int × List Ev :=
  if ¬ env.authkeyOk then
    let (c1, evs) := pa_context_fail c PA_ERROR_AUTHKEY
    (c1, -1, evs)
  else
    let server := match serverArg with
      | some s => s
      | none => match env.envDefaultServer with
        | some s => s
        | none => env.defaultServer
    if server.head? = some '/' then
      if env.unixClientOk then
        let (c1, evs) := pa_context_set_state { c with client := some () } .CONNECTING
        (c1, 0, evs)
      else
        let (c1, evs) := pa_context_fail c PA_ERROR_CONNECTIONREFUSED
        (c1, -1, evs)
    else
      match resolve_server env.resolver server with
      | none =>
        let (c1, evs) := pa_context_fail c PA_ERROR_INVALIDSERVER
        (c1, -1, evs)
      | some _ =>
        if env.sockClientOk then
          let (c1, evs) := pa_context_set_state { c with client := some () } .CONNECTING
          (c1, 0, evs)
        else
          let (c1, evs) := pa_context_fail c PA_ERROR_CONNECTIONREFUSED
          (c1, -1, evs)

/-! ### Context destruction -/

/-- Model of `context_free`, as an event trace.  `pa_operation_cancel` is modelled
from the spec ("cancelling a pending Operation finishes it without invoking
its user callback and unlinks it", polyplib-operation.c is not in the
sources): it emits only an `operationCancelled` event, never `userCallback`.
`pa_stream_set_state(s, TERMINATED)` unlinks the stream, ending the `while`
loop.  Afterwards the connector, reply dispatcher and packet transport are
released (each only if present) and the memory is freed. -/
def context_free (c : Context) : List Ev :=
  c.operations.map (fun o => Ev.operationCancelled o.id)
  ++ c.streams.map (fun s => Ev.streamSetState s.id .TERMINATED)
  ++ (if c.client.isSome then [Ev.releaseClient] else [])
  ++ (if c.pdispatch.isSome then [Ev.releasePdispatch] else [])
  ++ (if c.pstream.isSome then [Ev.releasePstream] else [])
  ++ [Ev.contextFreed]

/-- Model of `pa_context_unref` (asserted precondition: `c->ref >= 1`): decrement the
reference count; at zero the context is destroyed (`none` plus the
destruction trace). -/
def pa_context_unref (c : Context) : Option Context × List Ev :=
  if c.ref - 1 = 0 then (none, context_free c)
  else (some { c with ref := c.ref - 1 }, [])

/-! ### Tag issuance -/

/-- Model of `c->ctag++` on the `uint32_t` counter: the issued tag is the current
value, the stored counter the incremented value modulo `2^32`. -/
def issue_tag (c : Context) : Nat × Context :=
  (c.ctag, { c with ctag := (c.ctag + 1) % 2 ^ 32 })

/-- The kinds of outgoing requests that consume a correlation tag: the AUTH
request (`on_connection`), the SET_NAME request (`setup_complete_callback`),
the EXIT request (`pa_context_exit_daemon`) and every simple command
(`pa_context_send_simple_command`). -/
inductive Request where
  | auth
  | setName
  | exitDaemon
  | simpleCommand (command : Cmd)
deriving DecidableEq, Repr

/-- The command code an outgoing request puts on the wire. -/
def Request.command : Request → Cmd
  | .auth => .AUTH
  | .setName => .SET_NAME
  | .exitDaemon => .EXIT
  | .simpleCommand cmd => cmd

/-- Sending one outgoing request: every request site writes its command code
and then `tag = c->ctag++` into the tagstruct, so the tag logic is `issue_tag`
uniformly.  Returns the wire header (command, tag) and the new context. -/
def send_request (c : Context) (r : Request) : (Cmd × Nat) × Context :=
  let (tag, c1) := issue_tag c
  ((r.command, tag), c1)

/-- The tags put on the wire by a sequence of outgoing requests. -/
def tagsIssued (c : Context) : List Request → List Nat
  | [] => []
  | r :: rs =>
    let (hdr, c1) := send_request c r
    hdr.2 :: tagsIssued c1 rs

/-- Number of operation user-callback invocations in a trace. -/
def countUserCallbacks (evs : List Ev) : Nat :=
  (evs.filter (fun e => match e with | Ev.userCallback _ => true | _ => false)).length

/-! ### Concrete fixtures used by witnesses and counterexamples -/

/-- A connect environment whose auth-cookie load fails; everything else would
succeed. -/
def envBadCookie : ConnectEnv :=
  { authkeyOk := false
    resolver := fun _ _ => some 0
    unixClientOk := true
    sockClientOk := true
    envDefaultServer := none
    defaultServer := [] }

/-- The address `"/tmp/audiosock"`. -/
def audiosockPath : List Char :=
  ['/', 't', 'm', 'p', '/', 'a', 'u', 'd', 'i', 'o', 's', 'o', 'c', 'k']

/-- The host name `"localhost"`. -/
def localhostChars : List Char := ['l', 'o', 'c', 'a', 'l', 'h', 'o', 's', 't']

/-- The address `"localhost:4713"`. -/
def localhostPortChars : List Char := localhostChars ++ [':', '4', '7', '1', '3']

/-- A resolver that resolves exactly the node `"localhost"` (for any
service), the way a standard resolver handles a plain host name. -/
def resolverLocalhost : Resolver :=
  fun node _service => if node = localhostChars then some 0 else none

/-- A connect environment around `resolverLocalhost` in which every other
step succeeds. -/
def envLocalhost : ConnectEnv :=
  { authkeyOk := true
    resolver := resolverLocalhost
    unixClientOk := true
    sockClientOk := true
    envDefaultServer := none
    defaultServer := [] }

/-! ## Helper lemmas -/

/-- Model of `pa_context_fail` always leaves the context FAILED with the given error
code (whether or not it was FAILED already). -/
theorem pa_context_fail_state (c : Context) (e : Nat) :
    (pa_context_fail c e).1.state = .FAILED ∧ (pa_context_fail c e).1.error = e := by
  unfold pa_context_fail pa_context_set_state
  by_cases h : c.state = ContextState.FAILED
  · simp [h]
  · simp [h]

/-- When `pa_context_fail` actually transitions (the context was not already
FAILED), the terminal teardown nulls the connector and companion components
and the trace reports the observer callback when one is registered. -/
theorem pa_context_fail_teardown (c : Context) (e : Nat)
    (h : c.state ≠ .FAILED) :
    (pa_context_fail c e).1.client = none ∧
    (pa_context_fail c e).1.pstream = none ∧
    (pa_context_fail c e).1.pdispatch = none ∧
    (c.hasStateCallback = true →
      Ev.stateCallback .FAILED ∈ (pa_context_fail c e).2) := by
  unfold pa_context_fail pa_context_set_state
  simp [h]

/-- A disconnected context is always TERMINATED afterwards. -/
theorem pa_context_disconnect_state (c : Context) :
    (pa_context_disconnect c).1.state = .TERMINATED := by
  unfold pa_context_disconnect pa_context_set_state
  by_cases h : c.state = ContextState.TERMINATED
  · simp [h]
  · simp [h]

/-- Setting the state a context is already in is a complete no-op. -/
theorem set_state_noop (c : Context) (st : ContextState) (h : c.state = st) :
    pa_context_set_state c st = (c, []) := by
  unfold pa_context_set_state
  simp [h]

/-- Membership in a one-element list guarded by a condition. -/
theorem mem_ite_nil {α : Type} (p : Prop) [Decidable p] (a x : α) :
    (a ∈ if p then [x] else []) ↔ p ∧ a = x := by
  split <;> simp_all

/-- A state transition never invokes an operation's user callback. -/
theorem userCallback_not_mem_set_state (c : Context) (st : ContextState)
    (b : Bool) : Ev.userCallback b ∉ (pa_context_set_state c st).2 := by
  unfold pa_context_set_state
  by_cases h : c.state = st
  · simp [h]
  · simp [h, mem_ite_nil]

/-- A trace with no user-callback event has user-callback count zero. -/
theorem countUserCallbacks_eq_zero (evs : List Ev)
    (h : ∀ b, Ev.userCallback b ∉ evs) : countUserCallbacks evs = 0 := by
  unfold countUserCallbacks
  rw [List.length_eq_zero, List.filter_eq_nil_iff]
  intro a ha
  cases a <;> first
    | exact absurd ha (h _)
    | simp

/-- Model of `pa_context_fail` never invokes an operation's user callback. -/
theorem countUserCallbacks_fail (c : Context) (e : Nat) :
    countUserCallbacks (pa_context_fail c e).2 = 0 := by
  apply countUserCallbacks_eq_zero
  intro b
  unfold pa_context_fail
  exact userCallback_not_mem_set_state _ _ b

/-! ## Claims -/

/-- C10: `pa_context_is_pending` returns false whenever the context's state
is not READY, regardless of pending reply registrations or buffered transport
bytes; when the state is READY it returns true exactly when the packet
transport or the reply dispatcher reports pending work. -/
theorem is_pending_spec (c : Context) :
    (c.state ≠ .READY → pa_context_is_pending c = false) ∧
    (∀ ps pd, c.state = .READY → c.pstream = some ps → c.pdispatch = some pd →
      pa_context_is_pending c = (ps.pending || pd.pending)) := by
  constructor
  · intro h
    simp [pa_context_is_pending, h]
  · intro ps pd hs hps hpd
    simp [pa_context_is_pending, hs, hps, hpd]

/-- Witness for `is_pending_spec` at a concrete READY context with a pending
transport and an idle dispatcher, and at a concrete non-READY context. -/
theorem is_pending_spec_witness :
    pa_context_is_pending
      { pa_context_new with
          state := .READY, pstream := some ⟨true⟩, pdispatch := some ⟨false⟩ }
      = (true || false) ∧
    pa_context_is_pending pa_context_new = false := by
  refine ⟨?_, ?_⟩
  · exact (is_pending_spec _).2 ⟨true⟩ ⟨false⟩ rfl rfl rfl
  · exact (is_pending_spec pa_context_new).1 (by decide)

/-- C4: the shared error-translation step `pa_context_handle_error`:
an ERROR command with a readable numeric code stores that code as the last
error without failing the context and returns success; an ERROR command with
a truncated payload fails the context with ProtocolError; TIMEOUT sets the
last error to Timeout without failing the context; any other command fails
the context with ProtocolError. -/
theorem handle_error_spec (c : Context) (t : Tagstruct) :
    (∀ e rest, pa_tagstruct_getu32 t = some (e, rest) →
      (pa_context_handle_error c .ERROR t).1 = { c with error := e } ∧
      (pa_context_handle_error c .ERROR t).2.2 = 0) ∧
    (pa_tagstruct_getu32 t = none →
      (pa_context_handle_error c .ERROR t).1.state = .FAILED ∧
      (pa_context_handle_error c .ERROR t).1.error = PA_ERROR_PROTOCOL ∧
      (pa_context_handle_error c .ERROR t).2.2 = -1) ∧
    ((pa_context_handle_error c .TIMEOUT t).1 = { c with error := PA_ERROR_TIMEOUT } ∧
      (pa_context_handle_error c .TIMEOUT t).2.2 = 0) ∧
    (∀ command, command ≠ .ERROR → command ≠ .TIMEOUT →
      (pa_context_handle_error c command t).1.state = .FAILED ∧
      (pa_context_handle_error c command t).1.error = PA_ERROR_PROTOCOL ∧
      (pa_context_handle_error c command t).2.2 = -1) := by
  refine ⟨?_, ?_, ?_, ?_⟩
  · intro e rest hg
    simp [pa_context_handle_error, hg]
  · intro hg
    have hfail := pa_context_fail_state { c with error := PA_ERROR_PROTOCOL } PA_ERROR_PROTOCOL
    simp [pa_context_handle_error, hg]
    constructor
    · exact (pa_context_fail_state c PA_ERROR_PROTOCOL).1
    · exact (pa_context_fail_state c PA_ERROR_PROTOCOL).2
  · simp [pa_context_handle_error]
  · intro command h1 h2
    refine ⟨?_, ?_, ?_⟩
    · simp [pa_context_handle_error, h1, h2]
      exact (pa_context_fail_state c PA_ERROR_PROTOCOL).1
    · simp [pa_context_handle_error, h1, h2]
      exact (pa_context_fail_state c PA_ERROR_PROTOCOL).2
    · simp [pa_context_handle_error, h1, h2]

/-- Witness for `handle_error_spec`: a concrete ERROR reply carrying code 7
on a fresh context stores 7 without failing, and a concrete truncated ERROR
reply fails with ProtocolError. -/
theorem handle_error_spec_witness :
    (pa_context_handle_error pa_context_new .ERROR [7]).1
      = { pa_context_new with error := 7 } ∧
    (pa_context_handle_error pa_context_new .ERROR []).1.state = .FAILED ∧
    (pa_context_handle_error pa_context_new .ERROR []).1.error = PA_ERROR_PROTOCOL := by
  refine ⟨?_, ?_, ?_⟩
  · exact ((handle_error_spec pa_context_new [7]).1 7 [] rfl).1
  · exact ((handle_error_spec pa_context_new []).2.1 rfl).1
  · exact ((handle_error_spec pa_context_new []).2.1 rfl).2.1

/-- C8: an incoming raw audio memory chunk tagged with a channel id is
forwarded — data pointer (base plus chunk offset) and length — to the read
callback of the record stream registered at that id; when no record stream
occupies the slot nothing fires, no error is raised, and the context is
unchanged. -/
theorem memblock_routing_spec (c : Context) (channel : Nat) (delta : Int)
    (chunk : Memchunk) :
    (∀ s, pa_dynarray_get c.record_streams channel = some s →
      s.hasReadCallback = true →
      pstream_memblock_callback c channel delta chunk =
        (c, [Ev.readCallback s.id (chunk.data + chunk.index) chunk.length])) ∧
    (pa_dynarray_get c.record_streams channel = none →
      pstream_memblock_callback c channel delta chunk = (c, [])) := by
  constructor
  · intro s hs hcb
    simp [pstream_memblock_callback, hs, hcb]
  · intro hs
    simp [pstream_memblock_callback, hs]

/-- Witness for `memblock_routing_spec`: a chunk on channel 0 reaches the
registered record stream's callback; a chunk on empty channel 3 is dropped
with the context unchanged. -/
theorem memblock_routing_spec_witness :
    pstream_memblock_callback
        { pa_context_new with record_streams := [some ⟨5, true⟩, none, none, none] }
        0 1 ⟨100, 4, 16⟩
      = ({ pa_context_new with record_streams := [some ⟨5, true⟩, none, none, none] },
         [Ev.readCallback 5 104 16]) ∧
    pstream_memblock_callback
        { pa_context_new with record_streams := [some ⟨5, true⟩, none, none, none] }
        3 1 ⟨100, 4, 16⟩
      = ({ pa_context_new with record_streams := [some ⟨5, true⟩, none, none, none] },
         []) := by
  constructor
  · exact (memblock_routing_spec _ 0 1 ⟨100, 4, 16⟩).1 ⟨5, true⟩ rfl rfl
  · exact (memblock_routing_spec _ 3 1 ⟨100, 4, 16⟩).2 rfl

/-- C1, counterexample: `pa_context_connect` on a fresh (UNCONNECTED)
context with an unloadable auth cookie does NOT leave the state UNCONNECTED —
it transitions the context to FAILED (the claim says no state change
occurs). -/
theorem connect_authkey_counterexample :
    (pa_context_connect envBadCookie
        { pa_context_new with hasStateCallback := true }
        (some audiosockPath)).1.state ≠ .UNCONNECTED ∧
    (pa_context_connect envBadCookie
        { pa_context_new with hasStateCallback := true }
        (some audiosockPath)).1.state = .FAILED ∧
    Ev.stateCallback .FAILED ∈
      (pa_context_connect envBadCookie
        { pa_context_new with hasStateCallback := true }
        (some audiosockPath)).2.2 := by
  refine ⟨?_, ?_, ?_⟩ <;> decide

/-- C1 (amended): if the shared secret cannot be loaded, `pa_context_connect`
on an UNCONNECTED context returns failure synchronously with error
AuthKeyError and no connector is created, and the context transitions to
FAILED (invoking the state observer if registered) rather than staying
UNCONNECTED. -/
theorem connect_authkey_fail_spec (env : ConnectEnv) (c : Context)
    (server : Option (List Char)) (hstate : c.state = .UNCONNECTED)
    (hkey : env.authkeyOk = false) :
    (pa_context_connect env c server).2.1 = -1 ∧
    (pa_context_connect env c server).1.error = PA_ERROR_AUTHKEY ∧
    (pa_context_connect env c server).1.state = .FAILED ∧
    (pa_context_connect env c server).1.client = none ∧
    (c.hasStateCallback = true →
      Ev.stateCallback .FAILED ∈ (pa_context_connect env c server).2.2) := by
  have hne : c.state ≠ .FAILED := by
    rw [hstate]
    decide
  have h1 := pa_context_fail_state c PA_ERROR_AUTHKEY
  have h2 := pa_context_fail_teardown c PA_ERROR_AUTHKEY hne
  simp [pa_context_connect, hkey]
  exact ⟨h1.2, h1.1, h2.1, h2.2.2.2⟩

/-- Witness for `connect_authkey_fail_spec` at the fresh context and the
`"/tmp/audiosock"` address. -/
theorem connect_authkey_fail_spec_witness :
    (pa_context_connect envBadCookie pa_context_new (some audiosockPath)).2.1 = -1 ∧
    (pa_context_connect envBadCookie pa_context_new
      (some audiosockPath)).1.error = PA_ERROR_AUTHKEY ∧
    (pa_context_connect envBadCookie pa_context_new
      (some audiosockPath)).1.client = none := by
  have h := connect_authkey_fail_spec envBadCookie pa_context_new
    (some audiosockPath) rfl rfl
  exact ⟨h.1, h.2.1, h.2.2.2.1⟩

/-- C2, counterexample: a success (REPLY) payload with unexpected trailing
data delivered to the simple-ack handler does NOT invoke the operation's user
callback (the claim says the callback fires exactly once with success=false):
the handler jumps to `finish:`, failing the context with ProtocolError and
marking the operation done with zero user-callback invocations. -/
theorem simple_ack_trailing_counterexample :
    countUserCallbacks
      (pa_context_simple_ack_callback { pa_context_new with state := .READY }
        true .REPLY [0]).evs = 0 ∧
    (pa_context_simple_ack_callback { pa_context_new with state := .READY }
      true .REPLY [0]).ctx.state = .FAILED ∧
    (pa_context_simple_ack_callback { pa_context_new with state := .READY }
      true .REPLY [0]).ctx.error = PA_ERROR_PROTOCOL ∧
    (pa_context_simple_ack_callback { pa_context_new with state := .READY }
      true .REPLY [0]).opDone = true := by
  refine ⟨?_, ?_, ?_, ?_⟩ <;> decide

/-- C2 (amended): the simple-ack handler invokes the operation's user
callback (if set) exactly once with success=true on a well-formed success
reply and exactly once with success=false on an ERROR reply with readable
code or on a TIMEOUT reply; on a malformed success payload (trailing data)
it fails the context with ProtocolError and skips the user callback, and on
a truncated ERROR or unknown command it likewise fails the context and skips
the callback; in every case the operation is marked finished and unlinked. -/
theorem simple_ack_spec (c : Context) (hasCb : Bool) (command : Cmd)
    (t : Tagstruct) :
    (pa_context_simple_ack_callback c hasCb command t).opDone = true ∧
    (command = .REPLY → t = [] →
      (pa_context_simple_ack_callback c hasCb command t).ctx = c ∧
      (pa_context_simple_ack_callback c hasCb command t).evs
        = (if hasCb then [Ev.userCallback true] else [])) ∧
    (command = .REPLY → t ≠ [] →
      (pa_context_simple_ack_callback c hasCb command t).ctx.state = .FAILED ∧
      (pa_context_simple_ack_callback c hasCb command t).ctx.error
        = PA_ERROR_PROTOCOL ∧
      countUserCallbacks (pa_context_simple_ack_callback c hasCb command t).evs
        = 0) ∧
    (∀ e rest, command = .ERROR → t = e :: rest →
      (pa_context_simple_ack_callback c hasCb command t).ctx
        = { c with error := e } ∧
      (pa_context_simple_ack_callback c hasCb command t).evs
        = (if hasCb then [Ev.userCallback false] else [])) ∧
    (command = .TIMEOUT →
      (pa_context_simple_ack_callback c hasCb command t).ctx
        = { c with error := PA_ERROR_TIMEOUT } ∧
      (pa_context_simple_ack_callback c hasCb command t).evs
        = (if hasCb then [Ev.userCallback false] else [])) ∧
    (command = .ERROR → t = [] →
      (pa_context_simple_ack_callback c hasCb command t).ctx.state = .FAILED ∧
      (pa_context_simple_ack_callback c hasCb command t).ctx.error
        = PA_ERROR_PROTOCOL ∧
      countUserCallbacks (pa_context_simple_ack_callback c hasCb command t).evs
        = 0) ∧
    (command ≠ .REPLY → command ≠ .ERROR → command ≠ .TIMEOUT →
      (pa_context_simple_ack_callback c hasCb command t).ctx.state = .FAILED ∧
      (pa_context_simple_ack_callback c hasCb command t).ctx.error
        = PA_ERROR_PROTOCOL ∧
      countUserCallbacks (pa_context_simple_ack_callback c hasCb command t).evs
        = 0) := by
  have hs := pa_context_fail_state c PA_ERROR_PROTOCOL
  have hc := countUserCallbacks_fail c PA_ERROR_PROTOCOL
  refine ⟨?_, ?_, ?_, ?_, ?_, ?_, ?_⟩
  · unfold pa_context_simple_ack_callback
    repeat' split
    all_goals rfl
  · intro h1 h2
    subst h1
    subst h2
    simp [pa_context_simple_ack_callback, pa_tagstruct_eof]
  · intro h1 h2
    subst h1
    cases t with
    | nil => exact absurd rfl h2
    | cons x r =>
      simp [pa_context_simple_ack_callback, pa_tagstruct_eof, hs.1, hs.2, hc]
  · intro e rest h1 h2
    subst h1
    subst h2
    simp [pa_context_simple_ack_callback, pa_context_handle_error,
      pa_tagstruct_getu32]
  · intro h1
    subst h1
    simp [pa_context_simple_ack_callback, pa_context_handle_error]
  · intro h1 h2
    subst h1
    subst h2
    simp [pa_context_simple_ack_callback, pa_context_handle_error,
      pa_tagstruct_getu32, hs.1, hs.2, hc]
  · intro h1 h2 h3
    simp [pa_context_simple_ack_callback, pa_context_handle_error,
      h1, h2, h3, hs.1, hs.2, hc]

/-- Witness for `simple_ack_spec`: a concrete ERROR reply carrying code 4
invokes the user callback exactly once with success=false and stores 4 as the
last error; a concrete well-formed success reply invokes it exactly once with
success=true. -/
theorem simple_ack_spec_witness :
    (pa_context_simple_ack_callback { pa_context_new with state := .READY }
        true .ERROR [4]).ctx
      = { pa_context_new with state := .READY, error := 4 } ∧
    (pa_context_simple_ack_callback { pa_context_new with state := .READY }
        true .ERROR [4]).evs = [Ev.userCallback false] ∧
    (pa_context_simple_ack_callback { pa_context_new with state := .READY }
        true .REPLY []).evs = [Ev.userCallback true] ∧
    (pa_context_simple_ack_callback { pa_context_new with state := .READY }
        true .REPLY []).opDone = true := by
  have h1 := simple_ack_spec { pa_context_new with state := .READY } true .ERROR [4]
  have h2 := simple_ack_spec { pa_context_new with state := .READY } true .REPLY []
  refine ⟨?_, ?_, ?_, ?_⟩
  · exact (h1.2.2.2.1 4 [] rfl rfl).1
  · exact (h1.2.2.2.1 4 [] rfl rfl).2
  · exact (h2.2.1 rfl rfl).2
  · exact h2.1

/-- C3: entering FAILED or TERMINATED is a no-op when the context is already
in that state (so two disconnects in a row notify the observer only once:
the second produces no events at all); otherwise, before the observer
callback is invoked, every owned stream is forced to the corresponding
terminal state, the reply dispatcher, packet transport and connector are
released and the new state field committed, in that order. -/
theorem set_state_terminal_spec (c : Context) (st : ContextState)
    (hterm : st = .FAILED ∨ st = .TERMINATED) :
    (c.state = st → pa_context_set_state c st = (c, [])) ∧
    (c.state ≠ st →
      (pa_context_set_state c st).2 =
        c.streams.map (fun s => Ev.streamSetState s.id (terminalStreamState st))
        ++ (if c.pdispatch.isSome then [Ev.releasePdispatch] else [])
        ++ (if c.pstream.isSome then [Ev.releasePstream] else [])
        ++ (if c.client.isSome then [Ev.releaseClient] else [])
        ++ [Ev.commitState st]
        ++ (if c.hasStateCallback then [Ev.stateCallback st] else []) ∧
      (pa_context_set_state c st).1.state = st ∧
      (pa_context_set_state c st).1.pdispatch = none ∧
      (pa_context_set_state c st).1.pstream = none ∧
      (pa_context_set_state c st).1.client = none) ∧
    (pa_context_disconnect (pa_context_disconnect c).1).2 = [] := by
  refine ⟨fun h => set_state_noop c st h, ?_, ?_⟩
  · intro h
    unfold pa_context_set_state
    simp [h, hterm, List.append_assoc]
  · have h1 := pa_context_disconnect_state c
    show (pa_context_disconnect (pa_context_disconnect c).1).2 = []
    unfold pa_context_disconnect at h1 ⊢
    rw [set_state_noop _ _ h1]

/-- Witness for `set_state_terminal_spec`: a concrete CONNECTING context with
one stream, live components and a registered observer, forced to TERMINATED;
and idempotence at a context already TERMINATED. -/
theorem set_state_terminal_spec_witness :
    (pa_context_set_state
        { pa_context_new with
            state := .CONNECTING, streams := [⟨3, false⟩],
            pstream := some ⟨false⟩, pdispatch := some ⟨false⟩,
            client := some (), hasStateCallback := true }
        .TERMINATED).2 =
      [Ev.streamSetState 3 .TERMINATED, Ev.releasePdispatch, Ev.releasePstream,
       Ev.releaseClient, Ev.commitState .TERMINATED,
       Ev.stateCallback .TERMINATED] ∧
    pa_context_set_state { pa_context_new with state := .TERMINATED } .TERMINATED
      = ({ pa_context_new with state := .TERMINATED }, []) := by
  constructor
  · have h := set_state_terminal_spec
      { pa_context_new with
          state := .CONNECTING, streams := [⟨3, false⟩],
          pstream := some ⟨false⟩, pdispatch := some ⟨false⟩,
          client := some (), hasStateCallback := true }
      .TERMINATED (Or.inr rfl)
    rw [(h.2.1 (by decide)).1]
    rfl
  · exact (set_state_terminal_spec { pa_context_new with state := .TERMINATED }
      .TERMINATED (Or.inr rfl)).1 rfl

/-- C6: when a context's reference count reaches zero, destruction first
cancels every still-pending operation (no user callback ever fires in the
trace) and forces every owned stream to TERMINATED, and only afterwards
releases the connector, reply dispatcher and packet transport and frees the
context's memory: the trace splits into the cancellation/termination part
followed by the release/free part. -/
theorem context_unref_free_spec (c : Context) (h : c.ref = 1) :
    (pa_context_unref c).1 = none ∧
    (∀ o ∈ c.operations, Ev.operationCancelled o.id ∈ (pa_context_unref c).2) ∧
    (∀ s ∈ c.streams, Ev.streamSetState s.id .TERMINATED ∈ (pa_context_unref c).2) ∧
    (∀ b, Ev.userCallback b ∉ (pa_context_unref c).2) ∧
    (pa_context_unref c).2 =
      (c.operations.map (fun o => Ev.operationCancelled o.id)
        ++ c.streams.map (fun s => Ev.streamSetState s.id .TERMINATED))
      ++ ((if c.client.isSome then [Ev.releaseClient] else [])
          ++ (if c.pdispatch.isSome then [Ev.releasePdispatch] else [])
          ++ (if c.pstream.isSome then [Ev.releasePstream] else [])
          ++ [Ev.contextFreed]) := by
  have htr : (pa_context_unref c).2 = context_free c := by
    simp [pa_context_unref, h]
  refine ⟨by simp [pa_context_unref, h], ?_, ?_, ?_, ?_⟩
  · intro o ho
    rw [htr]
    simp only [context_free, List.append_assoc, List.mem_append, List.mem_map]
    exact Or.inl ⟨o, ho, rfl⟩
  · intro s hs
    rw [htr]
    simp only [context_free, List.append_assoc, List.mem_append, List.mem_map]
    exact Or.inr (Or.inl ⟨s, hs, rfl⟩)
  · intro b
    rw [htr]
    unfold context_free
    simp [mem_ite_nil]
  · rw [htr]
    unfold context_free
    simp [List.append_assoc]

/-- Witness for `context_unref_free_spec`: dropping the last reference of a
concrete context holding two pending operations, one live stream and live
components. -/
theorem context_unref_free_spec_witness :
    (pa_context_unref
        { pa_context_new with
            operations := [⟨1, true⟩, ⟨2, false⟩], streams := [⟨3, false⟩],
            pstream := some ⟨false⟩, pdispatch := some ⟨false⟩ }).1 = none ∧
    (pa_context_unref
        { pa_context_new with
            operations := [⟨1, true⟩, ⟨2, false⟩], streams := [⟨3, false⟩],
            pstream := some ⟨false⟩, pdispatch := some ⟨false⟩ }).2 =
      [Ev.operationCancelled 1, Ev.operationCancelled 2,
       Ev.streamSetState 3 .TERMINATED, Ev.releasePdispatch,
       Ev.releasePstream, Ev.contextFreed] := by
  have h := context_unref_free_spec
    { pa_context_new with
        operations := [⟨1, true⟩, ⟨2, false⟩], streams := [⟨3, false⟩],
        pstream := some ⟨false⟩, pdispatch := some ⟨false⟩ } rfl
  constructor
  · exact h.1
  · rw [h.2.2.2.2]
    rfl

/-- Closed form of the issued tag sequence: starting from counter value
`c.ctag < 2^32`, the `i`-th outgoing request carries tag
`(c.ctag + i) % 2^32`. -/
theorem tagsIssued_formula (rs : List Request) :
    ∀ c : Context, c.ctag < 2 ^ 32 →
      tagsIssued c rs = (List.range rs.length).map (fun i => (c.ctag + i) % 2 ^ 32) := by
  induction rs with
  | nil =>
    intro c h
    simp [tagsIssued]
  | cons r rs ih =>
    intro c h
    simp only [tagsIssued, send_request, issue_tag, List.length_cons,
      List.range_succ_eq_map, List.map_cons, List.map_map]
    rw [ih _ (Nat.mod_lt _ (by norm_num))]
    congr 1
    · simp only [Nat.add_zero, Nat.mod_eq_of_lt h]
    · apply List.map_congr_left
      intro i _
      simp only [Function.comp_apply]
      rw [Nat.mod_add_mod]
      congr 1
      omega

/-- The first tag issued by a non-empty request sequence is the counter's
current value. -/
theorem tagsIssued_head (rs : List Request) (c : Context) (h : rs ≠ []) :
    (tagsIssued c rs).head? = some c.ctag := by
  cases rs with
  | nil => exact absurd rfl h
  | cons r rs => simp [tagsIssued, send_request, issue_tag]

/-- Each issued tag is the modular successor of the previous one. -/
theorem tagsIssued_chain (rs : List Request) :
    ∀ c : Context,
      List.Chain' (fun a b => b = (a + 1) % 2 ^ 32) (tagsIssued c rs) := by
  induction rs with
  | nil =>
    intro c
    simp [tagsIssued]
  | cons r rs ih =>
    intro c
    rw [tagsIssued]
    refine List.chain'_cons'.mpr ⟨?_, ih _⟩
    intro y hy
    cases hrs : rs with
    | nil =>
      rw [hrs] at hy
      simp [tagsIssued] at hy
    | cons r2 rs2 =>
      rw [tagsIssued_head rs _ (by rw [hrs]; exact List.cons_ne_nil r2 rs2)] at hy
      simp only [Option.mem_def, Option.some.injEq] at hy
      rw [← hy]

/-- C7: every outgoing request (AUTH, SET_NAME, EXIT, every simple command)
takes its tag from the context's counter by post-increment; the issued tag
sequence follows the closed modular formula, each tag is the modular
successor of the one before (strictly increasing modulo wraparound), and any
window of at most `2^32` consecutive requests — hence any set of
simultaneously pending reply registrations — carries pairwise distinct
tags. -/
theorem tag_sequence_spec (c : Context) (rs : List Request)
    (h : c.ctag < 2 ^ 32) :
    (∀ r, (send_request c r).1.2 = c.ctag ∧
      (send_request c r).2.ctag = (c.ctag + 1) % 2 ^ 32) ∧
    tagsIssued c rs = (List.range rs.length).map (fun i => (c.ctag + i) % 2 ^ 32) ∧
    List.Chain' (fun a b => b = (a + 1) % 2 ^ 32) (tagsIssued c rs) ∧
    (rs.length ≤ 2 ^ 32 → (tagsIssued c rs).Nodup) := by
  refine ⟨fun r => ⟨rfl, rfl⟩, tagsIssued_formula rs c h, tagsIssued_chain rs c, ?_⟩
  intro hn
  rw [tagsIssued_formula rs c h]
  refine List.Nodup.map_on ?_ (List.nodup_range rs.length)
  intro i hi j hj hij
  rw [List.mem_range] at hi hj
  have hM : (2 : Nat) ^ 32 = 4294967296 := by norm_num
  rw [hM] at hij hn
  omega

/-- Witness for `tag_sequence_spec`: three concrete requests on a fresh
context carry tags 0, 1, 2 — pairwise distinct. -/
theorem tag_sequence_spec_witness :
    tagsIssued pa_context_new [Request.auth, Request.setName,
      Request.simpleCommand .EXIT] = [0, 1, 2] ∧
    (tagsIssued pa_context_new [Request.auth, Request.setName,
      Request.simpleCommand .EXIT]).Nodup := by
  have h := tag_sequence_spec pa_context_new
    [Request.auth, Request.setName, Request.simpleCommand .EXIT] (by decide)
  constructor
  · rw [h.2.1]
    decide
  · exact h.2.2.2 (by norm_num)

/-- While either predicate stays pending, every drain notification rearms and
leaves the operation untouched (in particular its reference count — the
armed notification's extra reference — is preserved). -/
theorem drainRun_all_pending (envs : List DrainEnv) :
    ∀ o : DrainOp, o.finished = false →
      (∀ e ∈ envs, (e.pdPending || e.psPending) = true) →
      drainRun envs o = o := by
  induction envs with
  | nil =>
    intro o _ _
    rfl
  | cons e rest ih =>
    intro o hf h
    have he := h e (List.mem_cons_self e rest)
    have hstep : set_dispatch_callbacks e o = o := by
      unfold set_dispatch_callbacks
      rw [if_pos he]
      rfl
    unfold drainRun
    rw [hstep, if_neg (by rw [hf]; exact Bool.false_ne_true)]
    exact ih o hf fun e' he' => h e' (List.mem_cons_of_mem e he')

/-- As soon as some notification observes both predicates false, the
completion callback fires exactly once and the operation finishes (dropping
the extra reference). -/
theorem drainRun_fires (envs : List DrainEnv) :
    ∀ o : DrainOp, o.finished = false →
      (∃ e ∈ envs, e.pdPending = false ∧ e.psPending = false) →
      (drainRun envs o).cbCount = o.cbCount + 1 ∧
      (drainRun envs o).finished = true ∧
      (drainRun envs o).refs = o.refs - 1 := by
  induction envs with
  | nil =>
    intro o hf hex
    rcases hex with ⟨e, he, -⟩
    exact absurd he (List.not_mem_nil e)
  | cons e rest ih =>
    intro o hf hex
    by_cases hp : (e.pdPending || e.psPending) = true
    · have hex' : ∃ e' ∈ rest, e'.pdPending = false ∧ e'.psPending = false := by
        rcases hex with ⟨e', he', hq⟩
        rcases List.mem_cons.mp he' with rfl | hmem
        · rw [hq.1, hq.2] at hp
          simp at hp
        · exact ⟨e', hmem, hq⟩
      have hstep : set_dispatch_callbacks e o = o := by
        unfold set_dispatch_callbacks
        rw [if_pos hp]
        rfl
      unfold drainRun
      rw [hstep, if_neg (by rw [hf]; exact Bool.false_ne_true)]
      exact ih o hf hex'
    · have hp' : ¬(e.pdPending || e.psPending) = true := hp
      have hstep : set_dispatch_callbacks e o =
          { refs := o.refs - 1, finished := true, cbCount := o.cbCount + 1,
            stream := o.stream } := by
        unfold set_dispatch_callbacks
        rw [if_neg hp']
      unfold drainRun
      rw [hstep]
      simp

/-- C5: `pa_context_drain` on a context with no outstanding protocol work
returns NULL and creates no operation; with outstanding work it creates a
detached operation (no stream) whose completion callback fires exactly once,
and only at a notification where both has-pending predicates are false —
while either predicate is still pending each notification rearms and the
operation keeps its extra reference. -/
theorem drain_spec (c : Context) (envs : List DrainEnv) :
    (pa_context_is_pending c = false → pa_context_drain c = none) ∧
    (pa_context_is_pending c = true →
      ∃ o, pa_context_drain c = some o ∧ o.stream = none ∧
        o.finished = false ∧ o.cbCount = 0 ∧ o.refs = 2 ∧
        ((∀ e ∈ envs, (e.pdPending || e.psPending) = true) →
          drainRun envs o = o) ∧
        ((∃ e ∈ envs, e.pdPending = false ∧ e.psPending = false) →
          (drainRun envs o).cbCount = 1 ∧ (drainRun envs o).finished = true)) := by
  constructor
  · intro h
    simp [pa_context_drain, h]
  · intro h
    refine ⟨{ refs := 2, finished := false, cbCount := 0, stream := none },
      by simp [pa_context_drain, h], rfl, rfl, rfl, rfl, ?_, ?_⟩
    · intro hall
      exact drainRun_all_pending envs _ rfl hall
    · intro hex
      have hfire := drainRun_fires envs
        { refs := 2, finished := false, cbCount := 0, stream := none } rfl hex
      exact ⟨hfire.1, hfire.2.1⟩

/-- Witness for `drain_spec`: a fresh (non-READY) context drains to NULL; a
concrete READY context with a pending transport yields an operation whose
callback fires exactly once under the notification sequence
"still pending, then both drained". -/
theorem drain_spec_witness :
    pa_context_drain pa_context_new = none ∧
    ∃ o, pa_context_drain
        { pa_context_new with
            state := .READY, pstream := some ⟨true⟩,
            pdispatch := some ⟨false⟩ } = some o ∧
      (drainRun [⟨true, false⟩, ⟨false, false⟩] o).cbCount = 1 := by
  have h := drain_spec
    { pa_context_new with
        state := .READY, pstream := some ⟨true⟩,
        pdispatch := some ⟨false⟩ }
    [⟨true, false⟩, ⟨false, false⟩]
  refine ⟨(drain_spec pa_context_new []).1 (by decide), ?_⟩
  rcases h.2 (by decide) with ⟨o, ho, -, -, -, -, -, hfire⟩
  exact ⟨o, ho, (hfire ⟨⟨false, false⟩, by simp, rfl, rfl⟩).1⟩

/-- C9, the code slip at the failing input `"localhost:4713"` with a
resolver that (like `getaddrinfo`) resolves the plain node `"localhost"` but
not the string `"localhost:4713"`: `resolve_server` extracts the port but
hands the WHOLE address — `:port` suffix included — to the resolver as the
node, so resolution fails and `pa_context_connect` reports InvalidServer and
creates no connector, while the spec's resolution step (host part as node,
`resolve_server_spec`) succeeds; the same resolver works through
`resolve_server` for a colon-free address, where the node really is the
host. -/
theorem resolve_server_node_retains_port :
    resolve_server resolverLocalhost localhostPortChars = none ∧
    resolve_server_spec resolverLocalhost localhostPortChars = some 0 ∧
    resolve_server resolverLocalhost localhostChars = some 0 ∧
    (pa_context_connect envLocalhost pa_context_new
      (some localhostPortChars)).2.1 = -1 ∧
    (pa_context_connect envLocalhost pa_context_new
      (some localhostPortChars)).1.error = PA_ERROR_INVALIDSERVER ∧
    (pa_context_connect envLocalhost pa_context_new
      (some localhostPortChars)).1.state = .FAILED ∧
    (pa_context_connect envLocalhost pa_context_new
      (some localhostPortChars)).1.client = none := by
  refine ⟨?_, ?_, ?_, ?_, ?_, ?_, ?_⟩ <;> decide

end Polyp
